import Mathlib

/- Verification development for the SFNO layer utilities in
paddle_harmonics/examples/sfno/models/layers.py and for the spherical Gaussian
random field sampler in ppsci/arch/paddle_harmonics/random_fields.py.

Tensors are idealized: real scalars become rationals (or reals where a square
root is computed), spatial tensors become lists or an abstract type, and the
external transform collaborators (spherical harmonic transforms, FFT wrappers)
are abstract maps carrying the nlat/nlon/lmax/mmax attributes that the layer
code reads. Shape-level reasoning uses lists of natural numbers with the
numpy/paddle right-aligned broadcasting rule. -/

/-- Python runtime errors that the embedded constructors can raise;
valueError stands for the broadcast shape error an elementwise multiply of
incompatible tensors raises. -/
inductive PyError
  | typeError
  | notImplementedError
  | assertionError
  | valueError
deriving DecidableEq

/-- The Python classes involved in the two spectral convolution layers. -/
inductive PyClass
  | layer
  | spectralConvS2
  | factorizedSpectralConvS2
deriving DecidableEq

/-- Direct base classes: both convolution classes subclass nn.Layer only
(layers.py lines 232 and 327). -/
def PyClass.bases : PyClass → List PyClass
  | .layer => []
  | .spectralConvS2 => [.layer]
  | .factorizedSpectralConvS2 => [.layer]

/-- Reflexive subclass test over the (one-level) class hierarchy above. -/
def PyClass.isSubclassOf (c d : PyClass) : Bool :=
  c == d || c.bases.contains d

/-- Semantics of the Python call super(cls, self).__init__(): it raises
TypeError unless the dynamic class of self is a subclass of cls. -/
def superInit (cls selfCls : PyClass) : Except PyError Unit :=
  if selfCls.isSubclassOf cls then .ok () else .error .typeError

/-- Whether an Except value is a success. -/
def exceptIsOk {ε α : Type} : Except ε α → Bool
  | .ok _ => true
  | .error _ => false

/-- One axis of numpy/paddle broadcasting: a size-1 axis stretches to the
other size, otherwise the sizes must agree. -/
def broadcastDim (d e : Nat) : Option Nat :=
  if d = 1 then some e
  else if e = 1 then some d
  else if d = e then some d
  else none

/-- Broadcast two aligned shape lists of equal length axis by axis. -/
def zipBroadcast : List Nat → List Nat → Option (List Nat)
  | [], [] => some []
  | d :: s, e :: t =>
      (broadcastDim d e).bind (fun r =>
        (zipBroadcast s t).map (fun rs => r :: rs))
  | _, _ => none

/-- Full numpy/paddle broadcasting: right-align the two shapes by padding the
shorter one with leading 1s, then broadcast axis by axis. -/
def broadcastShapes (s t : List Nat) : Option (List Nat) :=
  let n := max s.length t.length
  zipBroadcast (List.replicate (n - s.length) 1 ++ s)
    (List.replicate (n - t.length) 1 ++ t)

/-- A forward or inverse transform collaborator (RealSHT, RealFFT2, ...).
Per spec section 6 it exposes nlat, nlon, lmax, mmax and a callable mapping;
the mapping is abstracted as a function on an abstract tensor type T. -/
structure Transform (T : Type) where
  nlat : Nat
  nlon : Nat
  lmax : Nat
  mmax : Nat
  apply : T → T

/-- The three contraction collaborators imported from .contractions in
layers.py lines 272, 275, 278 (that module is external to this development),
with the random weight tensor already baked in. -/
structure Contractions (T : Type) where
  diagonal : T → T
  blockdiag : T → T
  dhconv : T → T

/-- State of a constructed SpectralConvS2 module (layers.py lines 239-300). -/
structure SpectralConvS2 (T : Type) where
  forward_transform : Transform T
  inverse_transform : Transform T
  modes_lat : Nat
  modes_lon : Nat
  scale_residual : Bool
  operator_type : String
  gain : Rat
  weight_shape : List Nat
  contract : T → T
  bias : Option T
  add : T → T → T

/-- SpectralConvS2.__init__ (layers.py lines 239-300). The weight tensor
entries are drawn from a random complex normal and are abstracted into the
contraction function; the per-mode scale values are modeled separately by
spectralWeightScale, but the shape of the line-286 product
scale * paddle.as_real(paddle.randn(weight_shape, dtype=paddle.complex64))
is modeled: scale has shape [modes_lat, 2] (line 283), as_real appends a
trailing axis of size 2 to weight_shape, and the elementwise multiply raises
a broadcast error when the two shapes are incompatible. bias_zeros is the
zero tensor used when bias is set (lines 295-300) and tensor_add is tensor
addition used by the bias line. -/
def spectralConvS2Init {T : Type} (forward_transform inverse_transform : Transform T)
    (in_channels out_channels : Nat) (gain : Rat) (operator_type : String)
    (lr_scale_exponent : Int) (bias : Bool) (contractions : Contractions T)
    (bias_zeros : T) (tensor_add : T → T → T) : Except PyError (SpectralConvS2 T) :=
  match superInit .spectralConvS2 .spectralConvS2 with
  | .error e => .error e
  | .ok _ =>
    let modes_lat := inverse_transform.lmax
    let modes_lon := inverse_transform.mmax
    let scale_residual :=
      (forward_transform.nlat != inverse_transform.nlat)
        || (forward_transform.nlon != inverse_transform.nlon)
    -- lines 265-266: assert inverse_transform.lmax == modes_lat (and mmax)
    if inverse_transform.lmax ≠ modes_lat then .error .assertionError
    else if inverse_transform.mmax ≠ modes_lon then .error .assertionError
    else
      -- lines 270-280: weight shape and contraction dispatch on operator_type
      let dispatch : Except PyError (List Nat × (T → T)) :=
        if operator_type = "diagonal" then
          .ok ([out_channels, in_channels, modes_lat, modes_lon],
            contractions.diagonal)
        else if operator_type = "block-diagonal" then
          .ok ([out_channels, in_channels, modes_lat, modes_lon, modes_lon],
            contractions.blockdiag)
        else if operator_type = "driscoll-healy" then
          .ok ([out_channels, in_channels, modes_lat], contractions.dhconv)
        else .error .notImplementedError
      match dispatch with
      | .error e => .error e
      | .ok (ws, ctr) =>
        -- lines 283-288: weight_tensor = scale * as_real(randn(weight_shape)):
        -- scale is [modes_lat, 2], the as_real weight is weight_shape ++ [2]
        match broadcastShapes [modes_lat, 2] (ws ++ [2]) with
        | none => .error .valueError
        | some _ =>
          .ok { forward_transform := forward_transform
                inverse_transform := inverse_transform
                modes_lat := modes_lat
                modes_lon := modes_lon
                scale_residual := scale_residual
                operator_type := operator_type
                gain := gain
                weight_shape := ws
                contract := ctr
                bias := if bias then some bias_zeros else none
                add := tensor_add }

/-- Per-mode scale of the complex weight (layers.py lines 283-284):
scale = sqrt(gain / in_channels) * ones([modes_lat, 2]); scale[0] *= sqrt(2).
The random complex-normal entries the scale multiplies are abstracted away. -/
noncomputable def spectralWeightScale (gain : Real) (in_channels : Nat) (l : Nat) : Real :=
  if l = 0 then Real.sqrt (gain / in_channels) * Real.sqrt 2
  else Real.sqrt (gain / in_channels)

/-- SpectralConvS2.forward (layers.py lines 302-324). The float32 cast and the
cast back to the input dtype are identities on the idealized tensor type. -/
def spectralConvS2Forward {T : Type} (conv : SpectralConvS2 T) (x : T) : T × T :=
  let residual := x
  let xspec := conv.forward_transform.apply x
  let residual :=
    if conv.scale_residual then conv.inverse_transform.apply xspec else residual
  let y := conv.contract xspec
  let y := conv.inverse_transform.apply y
  let y :=
    match conv.bias with
    | some b => conv.add y b
    | none => y
  (y, residual)

/-- State of a constructed FactorizedSpectralConvS2 module
(layers.py lines 332-413). The factorized weight object and the contraction
factory are external collaborators; only their construction arguments are
recorded. -/
structure FactorizedSpectralConvS2 (T : Type) where
  forward_transform : Transform T
  inverse_transform : Transform T
  modes_lat : Nat
  modes_lon : Nat
  scale_residual : Bool
  operator_type : String
  rank : Rat
  factorization : String
  separable : Bool
  implementation : String
  weight_shape : List Nat
  bias : Option T

/-- FactorizedSpectralConvS2.__init__ (layers.py lines 332-413). Line 347 is
super(SpectralConvS2, self).__init__(), yet the class subclasses nn.Layer
only, so the dynamic class of self is FactorizedSpectralConvS2, which is not a
subclass of SpectralConvS2. -/
def factorizedSpectralConvS2Init {T : Type} (forward_transform inverse_transform : Transform T)
    (in_channels out_channels : Nat) (gain : Rat) (operator_type : String)
    (rank : Rat) (factorization : Option String) (separable : Bool)
    (implementation : String) (bias : Bool) (bias_zeros : T) :
    Except PyError (FactorizedSpectralConvS2 T) :=
  match superInit .spectralConvS2 .factorizedSpectralConvS2 with
  | .error e => .error e
  | .ok _ =>
    let modes_lat := inverse_transform.lmax
    let modes_lon := inverse_transform.mmax
    let scale_residual :=
      (forward_transform.nlat != inverse_transform.nlat)
        || (forward_transform.nlon != inverse_transform.nlon)
    -- lines 360-363: coerce the factorization kind to a complex one
    let factorization := factorization.getD "Dense"
    let factorization :=
      if factorization.toLower.startsWith "complex" then factorization
      else "Complex" ++ factorization
    -- lines 371-372: assert inverse_transform.lmax == modes_lat (and mmax)
    if inverse_transform.lmax ≠ modes_lat then .error .assertionError
    else if inverse_transform.mmax ≠ modes_lon then .error .assertionError
    else
      let base := [out_channels] ++ (if separable then [] else [in_channels])
      let mk : List Nat → FactorizedSpectralConvS2 T := fun ws =>
        { forward_transform := forward_transform
          inverse_transform := inverse_transform
          modes_lat := modes_lat
          modes_lon := modes_lon
          scale_residual := scale_residual
          operator_type := operator_type
          rank := rank
          factorization := factorization
          separable := separable
          implementation := implementation
          weight_shape := ws
          bias := if bias then some bias_zeros else none }
      -- lines 379-386: weight shape dispatch on operator_type
      if operator_type = "diagonal" then
        .ok (mk (base ++ [modes_lat, modes_lon]))
      else if operator_type = "block-diagonal" then
        .ok (mk (base ++ [modes_lat, modes_lon, modes_lon]))
      else if operator_type = "driscoll-healy" then
        .ok (mk (base ++ [modes_lat]))
      else .error .notImplementedError

/-- Layers appearing in the MLP forward pipeline (layers.py lines 154-176). -/
inductive MLPLayer
  | fc1 (in_features hidden_features : Nat)
  | act
  | dropout (rate : Rat)
  | fc2 (hidden_features out_features : Nat) (bias : Bool)
deriving DecidableEq

/-- The nn.Sequential pipeline assembled by MLP.__init__ lines 172-176: with a
positive drop rate the same Dropout2D module is inserted twice, after the
activation and again after the second pointwise convolution. -/
def mlpForwardLayers (in_features hidden_features out_features : Nat)
    (output_bias : Bool) (drop_rate : Rat) : List MLPLayer :=
  if drop_rate > 0 then
    [.fc1 in_features hidden_features, .act, .dropout drop_rate,
     .fc2 hidden_features out_features output_bias, .dropout drop_rate]
  else
    [.fc1 in_features hidden_features, .act,
     .fc2 hidden_features out_features output_bias]

/-- Application of an nn.Sequential: fold the layers over the input, given a
semantics for each individual layer. -/
def runSequential {T : Type} (sem : MLPLayer → T → T) (layers : List MLPLayer)
    (x : T) : T :=
  layers.foldl (fun acc layer => sem layer acc) x

/-- State of a constructed MLP module. -/
structure MLPState where
  checkpointing : Bool
  fwd : List MLPLayer
deriving DecidableEq

/-- Modelled from the spec: the initializer collaborator init_normal_
(imported from ..utils.initializer, a module outside this development) fills a
buffer in place with a normal distribution; a normal distribution is
parameterized by its mean and standard deviation, so the accepted keyword
arguments are mean and std (the call on layers.py line 157 passes mean= and
std= by keyword). -/
def initNormalKwargs : List String := ["mean", "std"]

/-- Semantics of a Python keyword call to init_normal_: passing a keyword that
is not a parameter of the callee raises TypeError. -/
def callInitNormal (kwargs : List String) : Except PyError Unit :=
  if kwargs.all (fun k => initNormalKwargs.contains k) then .ok ()
  else .error .typeError

/-- MLP.__init__ (layers.py lines 136-176). Buffer contents are abstracted;
only the keyword-call structure of the two init_normal_ calls and the layer
pipeline are modeled. Note line 168 passes the misspelled keyword mena. -/
def mlpInit (in_features : Nat) (hidden_features out_features : Option Nat)
    (output_bias : Bool) (drop_rate : Rat) (checkpointing : Bool) (gain : Rat) :
    Except PyError MLPState :=
  match superInit .layer .layer with
  | .error e => .error e
  | .ok _ =>
    -- line 149: assert not checkpointing
    if checkpointing then .error .assertionError
    else
      let out_features := out_features.getD in_features
      let hidden_features := hidden_features.getD in_features
      -- line 157: init_normal_(fc1.weight, mean=0.0, std=scale)
      match callInitNormal ["mean", "std"] with
      | .error e => .error e
      | .ok _ =>
        -- line 168: init_normal_(fc2.weight, mena=0.0, std=scale)
        match callInitNormal ["mena", "std"] with
        | .error e => .error e
        | .ok _ =>
          .ok { checkpointing := checkpointing
                fwd := mlpForwardLayers in_features hidden_features out_features
                  output_bias drop_rate }

/-- drop_path (layers.py lines 102-121). A batched tensor is a list of
per-sample tensors (each a list of rationals); rand supplies the uniform
sample paddle.rand draws for each batch element (the mask shape
(batch, 1, ..., 1) broadcasts one decision over each sample). -/
def dropPath (x : List (List Rat)) (drop_prob : Rat) (training : Bool)
    (rand : List Rat) : List (List Rat) :=
  if drop_prob = 0 ∨ training = false then x
  else
    let keep_prob := 1 - drop_prob
    let random_tensor := rand.map (fun r => ((⌊keep_prob + r⌋ : Int) : Rat))
    (x.zip random_tensor).map (fun p => p.1.map (fun v => v / keep_prob * p.2))

/-- paddle clamp_(min=a, max=b) on a single value. -/
def clampTo (a b v : Rat) : Rat := min (max v a) b

/-- The non-fatal warning predicate of _no_grad_trunc_normal_
(layers.py lines 54-59). -/
def truncNormalWarns (mean std a b : Rat) : Bool :=
  (mean < a - 2 * std) || (mean > b + 2 * std)

/-- _no_grad_trunc_normal_ (layers.py lines 47-82). The buffer is a list of
rationals; us is the content uniform_ leaves in the buffer (the uniform
samples drawn from [2l-1, 2u-1]); erfinv is the transcendental inverse error
function applied elementwise by erfinv_; sqrt2 is the constant
math.sqrt(2.0). The remaining steps are the elementwise in-place pipeline
erfinv_, mul_(std * sqrt(2)), add_(mean), clamp_(min=a, max=b). -/
def noGradTruncNormal (erfinv : Rat → Rat) (sqrt2 : Rat)
    (mean std a b : Rat) (us : List Rat) : List Rat :=
  let t := us.map erfinv
  let t := t.map (fun v => v * (std * sqrt2))
  let t := t.map (fun v => v + mean)
  t.map (fun v => clampTo a b v)

/-- trunc_normal_ (layers.py lines 85-99) delegates to _no_grad_trunc_normal_. -/
def truncNormalFill (erfinv : Rat → Rat) (sqrt2 : Rat)
    (mean std a b : Rat) (us : List Rat) : List Rat :=
  noGradTruncNormal erfinv sqrt2 mean std a b us

/-- How sigma was obtained in GaussianRandomFieldS2.__init__: either passed in
or derived symbolically as tau raised to a rational exponent
(random_fields.py line 82: sigma = tau ** (0.5 * (2 * alpha - 2.0))). -/
inductive SigmaSpec
  | given (s : Rat)
  | derived (tau exp : Rat)
deriving DecidableEq

/-- State of a constructed GaussianRandomFieldS2 (random_fields.py lines
63-110). The sqrt_eig buffer values involve real powers and are kept at shape
level: [nlat] reshaped to [nlat, 1], tiled to [nlat, nlat + 1], tril and the
(0,0) overwrite preserve the shape, and unsqueeze(0) prepends a 1. -/
structure GRFState where
  nlat : Nat
  sigma : SigmaSpec
  sqrt_eig_shape : List Nat
deriving DecidableEq

/-- GaussianRandomFieldS2.__init__ (random_fields.py lines 63-110): with sigma
unset, line 81 asserts alpha > 1.0 (AssertionError otherwise) and line 82
derives sigma = tau ** (0.5 * (2 * alpha - 2.0)). -/
def grfInit (nlat : Nat) (alpha tau : Rat) (sigma : Option Rat) :
    Except PyError GRFState :=
  match sigma with
  | some s =>
      .ok { nlat := nlat, sigma := .given s, sqrt_eig_shape := [1, nlat, nlat + 1] }
  | none =>
      if 1 < alpha then
        .ok { nlat := nlat
              sigma := .derived tau ((1 / 2) * (2 * alpha - 2))
              sqrt_eig_shape := [1, nlat, nlat + 1] }
      else .error .assertionError

/-- paddle Tensor.squeeze() with no axis argument: remove every size-1 axis. -/
def squeezeAll (shape : List Nat) : List Nat :=
  shape.filter (fun d => d != 1)

/-- Shape behavior of paddle.as_complex: the trailing axis must have size 2
and is dropped. -/
def asComplexShape : List Nat → Option (List Nat)
  | [] => none
  | [d] => if d = 2 then some [] else none
  | d :: rest => (asComplexShape rest).map (fun r => d :: r)

/-- Shape behavior of the InverseRealSHT built on random_fields.py lines
85-87: it consumes coefficient axes (nlat, nlat + 1) as the last two axes and
produces spatial axes (nlat, 2 * nlat) in their place. -/
def ishtShape (nlat : Nat) (s : List Nat) : Option (List Nat) :=
  if s.drop (s.length - 2) = [nlat, nlat + 1] then
    some (s.take (s.length - 2) ++ [nlat, 2 * nlat])
  else none

/-- Shape returned by self.gaussian_noise.sample((N, nlat, nlat + 1, 2)) on
random_fields.py line 128: paddle.distribution.Normal was built from loc and
scale tensors of shape [1] (lines 104-110), so its batch shape [1] is appended
to the requested sample shape. -/
def grfSampleShape (nlat N : Nat) : List Nat :=
  [N, nlat, nlat + 1, 2, 1]

/-- Shape of the field returned by GaussianRandomFieldS2.forward with xi=None
(random_fields.py lines 127-134): squeeze the sampled noise, reinterpret it as
complex, broadcast-multiply with the registered sqrt_eig buffer of shape
[1, nlat, nlat + 1], and apply the inverse SHT. -/
def grfForwardShape (nlat N : Nat) : Option (List Nat) :=
  (asComplexShape (squeezeAll (grfSampleShape nlat N))).bind (fun xi =>
    (broadcastShapes xi [1, nlat, nlat + 1]).bind (fun prod =>
      ishtShape nlat prod))

/-- Concrete forward transform on an integer tensor model, used to evaluate
the residual-path theorem on an explicit instance. -/
def wFwdT : Transform Int := Transform.mk 4 8 4 5 (fun z => z + 1)

/-- Concrete inverse transform with the same (nlat, nlon) as wFwdT. -/
def wInvT : Transform Int := Transform.mk 4 8 4 5 (fun z => 2 * z)

/-- Concrete contraction collaborators for the instance above. -/
def wContr : Contractions Int := Contractions.mk (fun z => z) (fun z => z) (fun z => z)

/-- Concrete tensor addition for the instance above. -/
def wAdd : Int → Int → Int := fun a b => a + b

/-- The module state spectralConvS2Init produces on the instance above with
operator_type driscoll-healy. -/
def wConv : SpectralConvS2 Int :=
  SpectralConvS2.mk wFwdT wInvT 4 5 false "driscoll-healy" 2 [2, 2, 4]
    (fun z => z) none wAdd

/-- C6: drop_path returns its input unchanged whenever drop_prob = 0 or
training is false (layers.py lines 112-113): no mask is drawn and no
rescaling happens. -/
theorem drop_path_identity (x : List (List Rat)) (drop_prob : Rat)
    (training : Bool) (rand : List Rat)
    (h : drop_prob = 0 ∨ training = false) :
    dropPath x drop_prob training rand = x := by
  unfold dropPath
  rw [if_pos h]

/-- Witness for drop_path_identity at a concrete input. -/
theorem drop_path_identity_witness :
    dropPath [[3, 4], [5]] 0 true [1, 2] = [[3, 4], [5]] :=
  drop_path_identity [[3, 4], [5]] 0 true [1, 2] (Or.inl rfl)

/-- C8: every value trunc_normal_ leaves in the buffer lies in [a, b], for any
mean, positive std and bounds a ≤ b, because clamp_(min=a, max=b) is the last
step of the pipeline (layers.py line 81). -/
theorem trunc_normal_clamped (erfinv : Rat → Rat) (sqrt2 mean std a b : Rat)
    (us : List Rat) (hstd : 0 < std) (hab : a ≤ b) :
    ∀ v ∈ truncNormalFill erfinv sqrt2 mean std a b us, a ≤ v ∧ v ≤ b := by
  intro v hv
  unfold truncNormalFill noGradTruncNormal at hv
  rcases List.mem_map.mp hv with ⟨w, _, rfl⟩
  unfold clampTo
  exact ⟨le_min (le_max_right _ _) hab, min_le_right _ _⟩

/-- Witness for trunc_normal_clamped at a concrete input: the uniform sample 5
is mapped to the clamped value 2 of the output buffer, which lies in [-2, 2]. -/
theorem trunc_normal_clamped_witness :
    (0 : Rat) < 1 ∧ (-2 : Rat) ≤ 2 ∧
      (2 : Rat) ∈ truncNormalFill (fun v => v) 1 0 1 (-2) 2 [5] ∧
      ((-2 : Rat) ≤ 2 ∧ (2 : Rat) ≤ 2) := by
  have hmem : (2 : Rat) ∈ truncNormalFill (fun v => v) 1 0 1 (-2) 2 [5] := by
    norm_num [truncNormalFill, noGradTruncNormal, clampTo, min_def, max_def]
  exact ⟨by norm_num, by norm_num, hmem,
    trunc_normal_clamped (fun v => v) 1 0 1 (-2) 2 [5] (by norm_num) (by norm_num)
      2 hmem⟩

/-- C7: with sigma unset, GaussianRandomFieldS2 construction fails exactly
when alpha ≤ 1 (random_fields.py line 81), and for alpha > 1 it derives
sigma = tau ^ (alpha - 1), since 0.5 * (2 * alpha - 2) = alpha - 1 (line 82). -/
theorem grf_sigma_alpha_guard (nlat : Nat) (alpha tau : Rat) :
    (exceptIsOk (grfInit nlat alpha tau none) = false ↔ alpha ≤ 1) ∧
    (1 < alpha →
      grfInit nlat alpha tau none =
        .ok { nlat := nlat, sigma := .derived tau (alpha - 1),
              sqrt_eig_shape := [1, nlat, nlat + 1] }) := by
  constructor
  · by_cases h : 1 < alpha
    · simp only [grfInit, if_pos h, exceptIsOk]
      simp [not_le.mpr h]
    · simp only [grfInit, if_neg h, exceptIsOk]
      simp [not_lt.mp h]
  · intro h
    simp only [grfInit, if_pos h]
    have hexp : (1 / 2 : Rat) * (2 * alpha - 2) = alpha - 1 := by ring
    rw [hexp]

/-- Witness for grf_sigma_alpha_guard at alpha = 2, tau = 3, nlat = 4. -/
theorem grf_sigma_alpha_guard_witness :
    (1 : Rat) < 2 ∧
      grfInit 4 2 3 none =
        .ok { nlat := 4, sigma := .derived 3 1, sqrt_eig_shape := [1, 4, 5] } := by
  refine ⟨by norm_num, ?_⟩
  have h := (grf_sigma_alpha_guard 4 2 3).2 (by norm_num)
  norm_num at h
  exact h

/-- C4: constructing an MLP never succeeds: with checkpointing off, the
initialization of the second pointwise layer (layers.py line 168) passes the
misspelled keyword mena to init_normal_ and raises TypeError before the
module is assembled, contradicting the claimed normal(0, sqrt(gain /
hidden_features)) initialization. -/
theorem mlp_init_always_type_error (in_features : Nat)
    (hidden_features out_features : Option Nat) (output_bias : Bool)
    (drop_rate gain : Rat) :
    mlpInit in_features hidden_features out_features output_bias drop_rate
      false gain = .error .typeError := rfl

/-- C2: constructing a FactorizedSpectralConvS2 never succeeds: layers.py line
347 calls super(SpectralConvS2, self).__init__() although the class
subclasses nn.Layer only, so every construction raises TypeError and the
claimed dense-equivalent forward contract is unreachable. -/
theorem factorizedSpectralConvS2_init_always_type_error {T : Type}
    (forward_transform inverse_transform : Transform T)
    (in_channels out_channels : Nat) (gain : Rat) (operator_type : String)
    (rank : Rat) (factorization : Option String) (separable : Bool)
    (implementation : String) (bias : Bool) (bias_zeros : T) :
    factorizedSpectralConvS2Init forward_transform inverse_transform in_channels
      out_channels gain operator_type rank factorization separable
      implementation bias bias_zeros = .error .typeError := rfl

/-- C10 fails as stated: sampling with xi unset and N = 1 at nlat = 2 returns
a field of shape [1, 2, 4], keeping a leading singleton batch axis (the
squeezed noise broadcasts back against the sqrt_eig buffer of shape
[1, nlat, nlat + 1]), not the claimed [2, 4]. -/
theorem grf_forward_shape_batch_one_counterexample :
    grfForwardShape 2 1 = some [1, 2, 4] ∧ grfForwardShape 2 1 ≠ some [2, 4] := by
  decide

/-- C9: with a positive drop rate the MLP forward pipeline built on layers.py
lines 172-176 contains the dropout module twice, after the activation and
again after the second pointwise convolution, so under any layer semantics the
final output also passes through dropout. -/
theorem mlp_dropout_applied_twice {T : Type} (sem : MLPLayer → T → T)
    (in_features hidden_features out_features : Nat) (output_bias : Bool)
    (drop_rate : Rat) (x : T) (h : 0 < drop_rate) :
    mlpForwardLayers in_features hidden_features out_features output_bias
        drop_rate =
      [.fc1 in_features hidden_features, .act, .dropout drop_rate,
       .fc2 hidden_features out_features output_bias, .dropout drop_rate] ∧
    runSequential sem
        (mlpForwardLayers in_features hidden_features out_features output_bias
          drop_rate) x =
      sem (.dropout drop_rate)
        (sem (.fc2 hidden_features out_features output_bias)
          (sem (.dropout drop_rate)
            (sem .act (sem (.fc1 in_features hidden_features) x)))) := by
  have hl : mlpForwardLayers in_features hidden_features out_features output_bias
      drop_rate =
      [.fc1 in_features hidden_features, .act, .dropout drop_rate,
       .fc2 hidden_features out_features output_bias, .dropout drop_rate] := by
    unfold mlpForwardLayers
    rw [if_pos h]
  exact ⟨hl, by rw [hl]; rfl⟩

/-- Witness for mlp_dropout_applied_twice at drop rate 1 on an integer
semantics that increments at every layer. -/
theorem mlp_dropout_applied_twice_witness :
    (0 : Rat) < 1 ∧
      mlpForwardLayers 3 4 3 false 1 =
        [.fc1 3 4, .act, .dropout 1, .fc2 4 3 false, .dropout 1] ∧
      runSequential (fun _ z => z + 1) (mlpForwardLayers 3 4 3 false 1)
        (0 : Int) = 5 := by
  refine ⟨by norm_num, ?_, ?_⟩
  · exact (mlp_dropout_applied_twice (fun _ (z : Int) => z + 1) 3 4 3 false 1 0
      (by norm_num)).1
  · have h := (mlp_dropout_applied_twice (fun _ (z : Int) => z + 1) 3 4 3 false 1 0
      (by norm_num)).2
    simpa using h

/-- Helper: broadcasting a size-1 axis yields the other size. -/
theorem broadcastDim_one (e : Nat) : broadcastDim 1 e = some e := by
  unfold broadcastDim
  rw [if_pos rfl]

/-- Helper: broadcasting an axis against itself succeeds. -/
theorem broadcastDim_self (d : Nat) : broadcastDim d d = some d := by
  unfold broadcastDim
  by_cases h : d = 1
  · rw [if_pos h]
  · rw [if_neg h, if_neg h, if_pos rfl]

/-- C5: unknown operator types do raise NotImplementedError at SpectralConvS2
construction (layers.py line 280), and driscoll-healy always constructs; but
the claim's second half fails twice: with the valid type diagonal, the
line-286 product of the [modes_lat, 2] scale with the as_real weight
broadcast-fails whenever modes_lat ≠ modes_lon (here lmax = 16, mmax = 17,
the configuration of the spec's own end-to-end test), and the companion
FactorizedSpectralConvS2 raises TypeError even for the valid type
driscoll-healy, since its super() call on line 347 names a class it does not
descend from. -/
theorem operator_type_dispatch {T : Type}
    (forward_transform inverse_transform : Transform T)
    (in_channels out_channels : Nat) (gain : Rat) (operator_type : String)
    (lr_scale_exponent : Int) (bias : Bool) (contractions : Contractions T)
    (bias_zeros : T) (tensor_add : T → T → T) (rank : Rat)
    (factorization : Option String) (separable : Bool) (implementation : String) :
    (["diagonal", "block-diagonal", "driscoll-healy"].contains operator_type
        = false →
      spectralConvS2Init forward_transform inverse_transform in_channels
          out_channels gain operator_type lr_scale_exponent bias contractions
          bias_zeros tensor_add = .error .notImplementedError) ∧
    exceptIsOk (spectralConvS2Init forward_transform inverse_transform
        in_channels out_channels gain "driscoll-healy" lr_scale_exponent bias
        contractions bias_zeros tensor_add) = true ∧
    (inverse_transform.lmax = 16 → inverse_transform.mmax = 17 →
      spectralConvS2Init forward_transform inverse_transform in_channels
          out_channels gain "diagonal" lr_scale_exponent bias contractions
          bias_zeros tensor_add = .error .valueError) ∧
    factorizedSpectralConvS2Init forward_transform inverse_transform in_channels
        out_channels gain "driscoll-healy" rank factorization separable
        implementation bias bias_zeros = .error .typeError := by
  refine ⟨?_, ?_, ?_, rfl⟩
  · intro hc
    have h1 : operator_type ≠ "diagonal" := by
      intro he
      rw [he] at hc
      exact absurd hc (by decide)
    have h2 : operator_type ≠ "block-diagonal" := by
      intro he
      rw [he] at hc
      exact absurd hc (by decide)
    have h3 : operator_type ≠ "driscoll-healy" := by
      intro he
      rw [he] at hc
      exact absurd hc (by decide)
    simp [spectralConvS2Init, superInit, PyClass.isSubclassOf, h1, h2, h3]
  · have d1 : ("driscoll-healy" : String) ≠ "diagonal" := by decide
    have d2 : ("driscoll-healy" : String) ≠ "block-diagonal" := by decide
    have hb : broadcastShapes [inverse_transform.lmax, 2]
        [out_channels, in_channels, inverse_transform.lmax, 2] =
        some [out_channels, in_channels, inverse_transform.lmax, 2] := by
      show zipBroadcast [1, 1, inverse_transform.lmax, 2]
          [out_channels, in_channels, inverse_transform.lmax, 2] =
        some [out_channels, in_channels, inverse_transform.lmax, 2]
      simp [zipBroadcast, broadcastDim_one, broadcastDim_self]
    simp [spectralConvS2Init, superInit, PyClass.isSubclassOf, exceptIsOk,
      d1, d2, hb]
  · intro hl hm
    have h1617 : broadcastDim 16 17 = none := by decide
    have hb : broadcastShapes [16, 2] [out_channels, in_channels, 16, 17, 2] =
        none := by
      show zipBroadcast [1, 1, 1, 16, 2] [out_channels, in_channels, 16, 17, 2]
          = none
      simp [zipBroadcast, broadcastDim_one, h1617]
    simp [spectralConvS2Init, superInit, PyClass.isSubclassOf, hl, hm, hb]

/-- Witness for operator_type_dispatch on a concrete integer instance with
lmax = 16 and mmax = 17: the unknown type fourier raises NotImplementedError
and the valid type diagonal raises the broadcast error. -/
theorem operator_type_dispatch_witness :
    (["diagonal", "block-diagonal", "driscoll-healy"].contains "fourier"
        = false) ∧
      spectralConvS2Init (Transform.mk 16 32 16 17 (fun (z : Int) => z + 1))
        (Transform.mk 16 32 16 17 (fun z => 2 * z)) 2 2 2 "fourier" 0 false
        (Contractions.mk (fun z => z) (fun z => z) (fun z => z)) 0
        (fun a b => a + b) = .error .notImplementedError ∧
      spectralConvS2Init (Transform.mk 16 32 16 17 (fun (z : Int) => z + 1))
        (Transform.mk 16 32 16 17 (fun z => 2 * z)) 2 2 2 "diagonal" 0 false
        (Contractions.mk (fun z => z) (fun z => z) (fun z => z)) 0
        (fun a b => a + b) = .error .valueError := by
  refine ⟨by decide, ?_, ?_⟩
  · exact (operator_type_dispatch
      (Transform.mk 16 32 16 17 (fun (z : Int) => z + 1))
      (Transform.mk 16 32 16 17 (fun z => 2 * z)) 2 2 2 "fourier" 0 false
      (Contractions.mk (fun z => z) (fun z => z) (fun z => z)) 0
      (fun a b => a + b) 1 none false "factorized").1 (by decide)
  · exact (operator_type_dispatch
      (Transform.mk 16 32 16 17 (fun (z : Int) => z + 1))
      (Transform.mk 16 32 16 17 (fun z => 2 * z)) 2 2 2 "fourier" 0 false
      (Contractions.mk (fun z => z) (fun z => z) (fun z => z)) 0
      (fun a b => a + b) 1 none false "factorized").2.2.1 rfl rfl

/-- C1: the residual returned by SpectralConvS2.forward is the raw input when
the forward and inverse transforms share (nlat, nlon), and is
inverse_transform(forward_transform(input)) when the resolutions differ
(layers.py lines 258-260 and 302-324). -/
theorem spectralConvS2_residual_path {T : Type}
    (forward_transform inverse_transform : Transform T)
    (in_channels out_channels : Nat) (gain : Rat) (operator_type : String)
    (lr_scale_exponent : Int) (bias : Bool) (contractions : Contractions T)
    (bias_zeros : T) (tensor_add : T → T → T) (conv : SpectralConvS2 T) (x : T)
    (h : spectralConvS2Init forward_transform inverse_transform in_channels
        out_channels gain operator_type lr_scale_exponent bias contractions
        bias_zeros tensor_add = .ok conv) :
    (spectralConvS2Forward conv x).2 =
      if forward_transform.nlat = inverse_transform.nlat ∧
          forward_transform.nlon = inverse_transform.nlon then x
      else inverse_transform.apply (forward_transform.apply x) := by
  have hresid : conv.scale_residual =
      ((forward_transform.nlat != inverse_transform.nlat)
        || (forward_transform.nlon != inverse_transform.nlon)) ∧
      conv.forward_transform = forward_transform ∧
      conv.inverse_transform = inverse_transform := by
    simp only [spectralConvS2Init, superInit, PyClass.isSubclassOf,
      PyClass.bases] at h
    simp at h
    split at h
    · exact Except.noConfusion h
    · split at h
      · exact Except.noConfusion h
      · injection h with h2
        subst h2
        exact ⟨rfl, rfl, rfl⟩
  obtain ⟨hs, hf, hi⟩ := hresid
  have hforward : (spectralConvS2Forward conv x).2 =
      if conv.scale_residual then
        conv.inverse_transform.apply (conv.forward_transform.apply x)
      else x := rfl
  rw [hforward, hs, hf, hi]
  by_cases hres : forward_transform.nlat = inverse_transform.nlat ∧
      forward_transform.nlon = inverse_transform.nlon
  · obtain ⟨ha, hb⟩ := hres
    simp [ha, hb]
  · rw [if_neg hres]
    rcases not_and_or.mp hres with hne | hne
    · simp [bne_iff_ne, hne]
    · simp [bne_iff_ne, hne]

/-- Witness for spectralConvS2_residual_path on the concrete equal-resolution
instance wFwdT/wInvT: the residual is the raw input 7. -/
theorem spectralConvS2_residual_path_witness :
    spectralConvS2Init wFwdT wInvT 2 2 2 "driscoll-healy" 0 false wContr 0 wAdd
        = .ok wConv ∧
      (spectralConvS2Forward wConv 7).2 = 7 := by
  have heq : spectralConvS2Init wFwdT wInvT 2 2 2 "driscoll-healy" 0 false
      wContr 0 wAdd = .ok wConv := rfl
  refine ⟨heq, ?_⟩
  have h := spectralConvS2_residual_path wFwdT wInvT 2 2 2 "driscoll-healy" 0
    false wContr 0 wAdd wConv 7 heq
  simpa [wFwdT, wInvT] using h

/-- C3 fails as stated: with gain = 2 and in_channels = 2 the base scale
sqrt(gain / in_channels) is 1, and the zeroth-latitude-mode scale is sqrt(2),
not the claimed double (layers.py line 284 multiplies by sqrt(2)). -/
theorem spectral_weight_scale_zero_mode_not_doubled :
    spectralWeightScale 2 2 0 ≠ 2 * spectralWeightScale 2 2 1 := by
  unfold spectralWeightScale
  rw [if_pos rfl, if_neg one_ne_zero]
  have hone : (2 : Real) / ((2 : Nat) : Real) = 1 := by norm_num
  rw [hone, Real.sqrt_one, one_mul, mul_one]
  intro h
  have h2 : Real.sqrt 2 ^ 2 = 2 := Real.sq_sqrt (by norm_num)
  rw [h] at h2
  norm_num at h2

/-- C3 amended: the weight scale is sqrt(gain / in_channels) for every nonzero
latitude mode, and the zeroth-mode scale is sqrt(2) times that value (its
square, the variance, is doubled), not twice it. -/
theorem spectral_weight_scale_zero_mode_sqrt_two (gain : Real)
    (in_channels l : Nat) (h : l ≠ 0) :
    spectralWeightScale gain in_channels l = Real.sqrt (gain / in_channels) ∧
    spectralWeightScale gain in_channels 0 =
      Real.sqrt 2 * spectralWeightScale gain in_channels l := by
  unfold spectralWeightScale
  rw [if_neg h, if_pos rfl]
  exact ⟨rfl, mul_comm _ _⟩

/-- Witness for spectral_weight_scale_zero_mode_sqrt_two at gain = 2,
in_channels = 2, l = 1. -/
theorem spectral_weight_scale_zero_mode_sqrt_two_witness :
    (1 : Nat) ≠ 0 ∧
      spectralWeightScale 2 2 1 = Real.sqrt (2 / ((2 : Nat) : Real)) ∧
      spectralWeightScale 2 2 0 = Real.sqrt 2 * spectralWeightScale 2 2 1 :=
  ⟨one_ne_zero, (spectral_weight_scale_zero_mode_sqrt_two 2 2 1 one_ne_zero).1,
    (spectral_weight_scale_zero_mode_sqrt_two 2 2 1 one_ne_zero).2⟩

/-- C10 amended: for nlat ≥ 2 and xi unset, sampling N = 1 field returns shape
[1, nlat, 2 * nlat] (the squeeze drops the batch axis of the noise but the
broadcast against the sqrt_eig buffer of shape [1, nlat, nlat + 1] restores a
leading singleton), while N ≥ 2 returns shape [N, nlat, 2 * nlat]. -/
theorem grf_forward_shape_batched (nlat N : Nat) (h2 : 2 ≤ nlat) :
    grfForwardShape nlat 1 = some [1, nlat, 2 * nlat] ∧
    (2 ≤ N → grfForwardShape nlat N = some [N, nlat, 2 * nlat]) := by
  obtain ⟨k, rfl⟩ : ∃ k, nlat = k + 2 := ⟨nlat - 2, by omega⟩
  have hk1 : ((k + 2 : Nat) != 1) = true := by
    simp only [bne_iff_ne]
    omega
  have hk2 : ((k + 2 + 1 : Nat) != 1) = true := by
    simp only [bne_iff_ne]
    omega
  constructor
  · have s1 : squeezeAll (grfSampleShape (k + 2) 1) = [k + 2, k + 2 + 1, 2] := by
      simp [grfSampleShape, squeezeAll, List.filter, hk1, hk2]
    have s2 : asComplexShape [k + 2, k + 2 + 1, 2] = some [k + 2, k + 2 + 1] := by
      simp [asComplexShape]
    have s3 : broadcastShapes [k + 2, k + 2 + 1] [1, k + 2, k + 2 + 1] =
        some [1, k + 2, k + 2 + 1] := by
      have e1 : ((k + 2 : Nat) = 1) = False := by simp
      have e2 : ((k + 2 + 1 : Nat) = 1) = False := by simp
      simp [broadcastShapes, zipBroadcast, broadcastDim, e1, e2, List.replicate]
    have s4 : ishtShape (k + 2) [1, k + 2, k + 2 + 1] =
        some [1, k + 2, 2 * (k + 2)] := by
      simp [ishtShape]
    simp [grfForwardShape, s1, s2, s3, s4]
  · intro hN
    obtain ⟨m, rfl⟩ : ∃ m, N = m + 2 := ⟨N - 2, by omega⟩
    have hm1 : ((m + 2 : Nat) != 1) = true := by
      simp only [bne_iff_ne]
      omega
    have s1 : squeezeAll (grfSampleShape (k + 2) (m + 2)) =
        [m + 2, k + 2, k + 2 + 1, 2] := by
      simp [grfSampleShape, squeezeAll, List.filter, hk1, hk2, hm1]
    have s2 : asComplexShape [m + 2, k + 2, k + 2 + 1, 2] =
        some [m + 2, k + 2, k + 2 + 1] := by
      simp [asComplexShape]
    have s3 : broadcastShapes [m + 2, k + 2, k + 2 + 1] [1, k + 2, k + 2 + 1] =
        some [m + 2, k + 2, k + 2 + 1] := by
      have e1 : ((k + 2 : Nat) = 1) = False := by simp
      have e2 : ((k + 2 + 1 : Nat) = 1) = False := by simp
      have e3 : ((m + 2 : Nat) = 1) = False := by simp
      simp [broadcastShapes, zipBroadcast, broadcastDim, e1, e2, e3,
        List.replicate]
    have s4 : ishtShape (k + 2) [m + 2, k + 2, k + 2 + 1] =
        some [m + 2, k + 2, 2 * (k + 2)] := by
      simp [ishtShape]
    simp [grfForwardShape, s1, s2, s3, s4]

/-- Witness for grf_forward_shape_batched at nlat = 3 with N = 1 and N = 4. -/
theorem grf_forward_shape_batched_witness :
    (2 : Nat) ≤ 3 ∧ grfForwardShape 3 1 = some [1, 3, 6] ∧
      ((2 : Nat) ≤ 4 ∧ grfForwardShape 3 4 = some [4, 3, 6]) :=
  ⟨by decide, (grf_forward_shape_batched 3 4 (by decide)).1,
    ⟨by decide, (grf_forward_shape_batched 3 4 (by decide)).2 (by decide)⟩⟩
